import Mathlib

/-!
Verification of the persisted-entity store of `Biography-Domains/tonyhawk-bio`
(`src/docs/backend/models.py`).

The repository source declares four SQLAlchemy model classes (Visitor,
Achievement, GalleryItem, Message) with mixins for UUID primary keys,
timestamps and dict serialization.  The schema constraints embedded below
(required/optional columns, string length caps, store-wide email uniqueness,
the `messages.visitor_id` foreign key with `ondelete="CASCADE"` and
`cascade="all, delete-orphan"`) are taken directly from that file.  The store
operations themselves (Create / Read / Update / Delete) are not part of the
source fragment; they are modelled from the spec's "Persisted Entity Store"
contract (spec section 4.1) on top of the declared schema, with engine
behavior (length rejection, constraint errors) following the PostgreSQL
dialect the models target.

Timestamps are modelled as natural numbers drawn from a monotone store clock;
UUIDs as natural numbers below 2^128 produced by a generator `uuid4`.
-/

namespace TonyHawkBio

/-- Error kinds of the store (spec section 7), plus the engine's length error:
PostgreSQL rejects a value longer than a `String(n)` column with a data error
rather than truncating it, surfaced separately from integrity errors. -/
inductive DbError where
  | NotFound
  | ConstraintViolation
  | DataError
deriving DecidableEq, Repr

/-- `uuid.uuid4`, modelled as a generator over seeds whose codomain is the
128-bit range: identifiers are 128-bit opaque tokens, not sequential. -/
def uuid4 (seed : Nat) : Nat := seed % 2 ^ 128

/-- A row of table `visitors`: id (UUID pk), email `String(255)` unique not
null, name `String(255)` nullable, subscribed_at nullable timestamp, plus the
`TimestampMixin` columns. -/
structure VisitorRow where
  id : Nat
  email : String
  name : Option String
  subscribed_at : Option Nat
  created_at : Nat
  updated_at : Nat
deriving DecidableEq, Repr

/-- A row of table `achievements`: title `String(255)` not null, year nullable
integer, description unbounded `Text` nullable, category `String(255)`
nullable. -/
structure AchievementRow where
  id : Nat
  title : String
  year : Option Int
  description : Option String
  category : Option String
  created_at : Nat
  updated_at : Nat
deriving DecidableEq, Repr

/-- A row of table `gallery`: image_url `String(2048)` not null, caption
`String(500)` nullable, year nullable integer. -/
structure GalleryItemRow where
  id : Nat
  image_url : String
  caption : Option String
  year : Option Int
  created_at : Nat
  updated_at : Nat
deriving DecidableEq, Repr

/-- A row of table `messages`: visitor_id (UUID, foreign key to `visitors.id`,
not null), subject `String(255)` nullable, content unbounded `Text` not null.
The class body redeclares `created_at`; under declarative-mixin resolution the
redeclaration shadows the mixin's column of the same name, so the persisted
row carries a single `created_at` (and the mixin's `updated_at`). -/
structure MessageRow where
  id : Nat
  visitor_id : Nat
  subject : Option String
  content : String
  created_at : Nat
  updated_at : Nat
deriving DecidableEq, Repr

/-- The persisted entity store: the four tables plus a monotone clock
supplying `func.now()` timestamps. -/
structure Store where
  visitors : List VisitorRow
  achievements : List AchievementRow
  gallery : List GalleryItemRow
  messages : List MessageRow
  clock : Nat
deriving DecidableEq, Repr

def emptyStore : Store := ⟨[], [], [], [], 0⟩

/-- All identifiers stored in any of the four tables. -/
def Store.allIds (s : Store) : List Nat :=
  s.visitors.map (fun v => v.id) ++ s.achievements.map (fun a => a.id) ++
    s.gallery.map (fun g => g.id) ++ s.messages.map (fun m => m.id)

/-- Optional values supplied at creation for the columns that otherwise get
engine defaults (`default=uuid.uuid4`, `server_default=func.now()`). -/
structure CreateMeta where
  id : Option Nat
  created_at : Option Nat
  updated_at : Option Nat
deriving DecidableEq, Repr

def noMeta : CreateMeta := ⟨none, none, none⟩

/-- Input fields for a Visitor write; `none` means absent (for Create) or
unchanged (for Update). -/
structure VisitorFields where
  email : Option String
  name : Option String
  subscribed_at : Option Nat
deriving DecidableEq, Repr

structure AchievementFields where
  title : Option String
  year : Option Int
  description : Option String
  category : Option String
deriving DecidableEq, Repr

structure GalleryItemFields where
  image_url : Option String
  caption : Option String
  year : Option Int
deriving DecidableEq, Repr

structure MessageFields where
  visitor_id : Option Nat
  subject : Option String
  content : Option String
deriving DecidableEq, Repr

/-- Does an optional string value fit under a `String(cap)` column? An absent
value trivially fits. -/
def fitsCap : Option String → Nat → Bool
  | none, _ => true
  | some v, cap => decide (v.length ≤ cap)

/-- Partial-update semantics for an optional column: a supplied value replaces
the stored one, an absent value leaves it unchanged. -/
def applyOpt {α : Type} (new old : Option α) : Option α :=
  match new with
  | some v => some v
  | none => old

/-- Modelled from the spec: `Create(fields)` for Visitor (section 4.1; the
source declares only the schema).  Required `email` absent fails with
`ConstraintViolation`; over-length strings are rejected by the engine with a
data error; a duplicate email violates the `unique=True` constraint; a
duplicate primary key violates the pk constraint.  Identifier and timestamps
are assigned from `uuid4` and the clock when not supplied.  On error the
store is unchanged (each operation is one atomic transaction). -/
def createVisitor (s : Store) (seed : Nat) (meta : CreateMeta) (f : VisitorFields) :
    Except DbError VisitorRow × Store :=
  match f.email with
  | none => (.error .ConstraintViolation, s)
  | some e =>
    if !fitsCap (some e) 255 then (.error .DataError, s)
    else if !fitsCap f.name 255 then (.error .DataError, s)
    else if s.visitors.any (fun v => v.email == e) then (.error .ConstraintViolation, s)
    else
      let newId := meta.id.getD (uuid4 seed)
      if s.visitors.any (fun v => v.id == newId) then (.error .ConstraintViolation, s)
      else
        let row : VisitorRow :=
          ⟨newId, e, f.name, f.subscribed_at,
            meta.created_at.getD s.clock, meta.updated_at.getD s.clock⟩
        (.ok row, { s with visitors := s.visitors ++ [row], clock := s.clock + 1 })

/-- Modelled from the spec: `Read(id)` for Visitor (section 4.1). -/
def readVisitor (s : Store) (vid : Nat) : Except DbError VisitorRow :=
  match s.visitors.find? (fun v => v.id == vid) with
  | some v => .ok v
  | none => .error .NotFound

/-- Modelled from the spec: `Update(id, partial fields)` for Visitor
(section 4.1).  Absent id fails with `NotFound`; over-length values are
rejected; changing the email to another visitor's email violates uniqueness;
on success the update timestamp is refreshed from the clock. -/
def updateVisitor (s : Store) (vid : Nat) (f : VisitorFields) :
    Except DbError VisitorRow × Store :=
  match s.visitors.find? (fun v => v.id == vid) with
  | none => (.error .NotFound, s)
  | some old =>
    if !fitsCap f.email 255 then (.error .DataError, s)
    else if !fitsCap f.name 255 then (.error .DataError, s)
    else
      let e := f.email.getD old.email
      if s.visitors.any (fun v => v.id != vid && v.email == e) then
        (.error .ConstraintViolation, s)
      else
        let row : VisitorRow :=
          ⟨old.id, e, applyOpt f.name old.name, applyOpt f.subscribed_at old.subscribed_at,
            old.created_at, s.clock⟩
        (.ok row,
          { s with visitors := s.visitors.map (fun v => if v.id == vid then row else v),
                   clock := s.clock + 1 })

/-- Modelled from the spec: `Delete(id)` for Visitor (section 4.1).  The
`ondelete="CASCADE"` foreign key and `cascade="all, delete-orphan"`
relationship make the delete remove the visitor row and every message row
referencing it in the same atomic operation. -/
def deleteVisitor (s : Store) (vid : Nat) : Except DbError Unit × Store :=
  if s.visitors.any (fun v => v.id == vid) then
    (.ok (),
      { s with visitors := s.visitors.filter (fun v => v.id != vid),
               messages := s.messages.filter (fun m => m.visitor_id != vid) })
  else (.error .NotFound, s)

/-- Modelled from the spec: `Create(fields)` for Achievement (section 4.1).
Required `title` absent fails with `ConstraintViolation`; `title` and
`category` are capped at 255 characters; `description` is unbounded `Text`. -/
def createAchievement (s : Store) (seed : Nat) (meta : CreateMeta) (f : AchievementFields) :
    Except DbError AchievementRow × Store :=
  match f.title with
  | none => (.error .ConstraintViolation, s)
  | some t =>
    if !fitsCap (some t) 255 then (.error .DataError, s)
    else if !fitsCap f.category 255 then (.error .DataError, s)
    else
      let newId := meta.id.getD (uuid4 seed)
      if s.achievements.any (fun a => a.id == newId) then (.error .ConstraintViolation, s)
      else
        let row : AchievementRow :=
          ⟨newId, t, f.year, f.description, f.category,
            meta.created_at.getD s.clock, meta.updated_at.getD s.clock⟩
        (.ok row, { s with achievements := s.achievements ++ [row], clock := s.clock + 1 })

/-- Modelled from the spec: `Read(id)` for Achievement (section 4.1). -/
def readAchievement (s : Store) (aid : Nat) : Except DbError AchievementRow :=
  match s.achievements.find? (fun a => a.id == aid) with
  | some a => .ok a
  | none => .error .NotFound

/-- Modelled from the spec: `Update(id, partial fields)` for Achievement
(section 4.1). -/
def updateAchievement (s : Store) (aid : Nat) (f : AchievementFields) :
    Except DbError AchievementRow × Store :=
  match s.achievements.find? (fun a => a.id == aid) with
  | none => (.error .NotFound, s)
  | some old =>
    if !fitsCap f.title 255 then (.error .DataError, s)
    else if !fitsCap f.category 255 then (.error .DataError, s)
    else
      let row : AchievementRow :=
        ⟨old.id, f.title.getD old.title, applyOpt f.year old.year,
          applyOpt f.description old.description, applyOpt f.category old.category,
          old.created_at, s.clock⟩
      (.ok row,
        { s with achievements := s.achievements.map (fun a => if a.id == aid then row else a),
                 clock := s.clock + 1 })

/-- Modelled from the spec: `Delete(id)` for Achievement (section 4.1). -/
def deleteAchievement (s : Store) (aid : Nat) : Except DbError Unit × Store :=
  if s.achievements.any (fun a => a.id == aid) then
    (.ok (), { s with achievements := s.achievements.filter (fun a => a.id != aid) })
  else (.error .NotFound, s)

/-- Modelled from the spec: `Create(fields)` for GalleryItem (section 4.1).
Required `image_url` absent fails with `ConstraintViolation`; `image_url` is
capped at 2048 characters and `caption` at 500. -/
def createGalleryItem (s : Store) (seed : Nat) (meta : CreateMeta) (f : GalleryItemFields) :
    Except DbError GalleryItemRow × Store :=
  match f.image_url with
  | none => (.error .ConstraintViolation, s)
  | some u =>
    if !fitsCap (some u) 2048 then (.error .DataError, s)
    else if !fitsCap f.caption 500 then (.error .DataError, s)
    else
      let newId := meta.id.getD (uuid4 seed)
      if s.gallery.any (fun g => g.id == newId) then (.error .ConstraintViolation, s)
      else
        let row : GalleryItemRow :=
          ⟨newId, u, f.caption, f.year,
            meta.created_at.getD s.clock, meta.updated_at.getD s.clock⟩
        (.ok row, { s with gallery := s.gallery ++ [row], clock := s.clock + 1 })

/-- Modelled from the spec: `Read(id)` for GalleryItem (section 4.1). -/
def readGalleryItem (s : Store) (gid : Nat) : Except DbError GalleryItemRow :=
  match s.gallery.find? (fun g => g.id == gid) with
  | some g => .ok g
  | none => .error .NotFound

/-- Modelled from the spec: `Update(id, partial fields)` for GalleryItem
(section 4.1). -/
def updateGalleryItem (s : Store) (gid : Nat) (f : GalleryItemFields) :
    Except DbError GalleryItemRow × Store :=
  match s.gallery.find? (fun g => g.id == gid) with
  | none => (.error .NotFound, s)
  | some old =>
    if !fitsCap f.image_url 2048 then (.error .DataError, s)
    else if !fitsCap f.caption 500 then (.error .DataError, s)
    else
      let row : GalleryItemRow :=
        ⟨old.id, f.image_url.getD old.image_url, applyOpt f.caption old.caption,
          applyOpt f.year old.year, old.created_at, s.clock⟩
      (.ok row,
        { s with gallery := s.gallery.map (fun g => if g.id == gid then row else g),
                 clock := s.clock + 1 })

/-- Modelled from the spec: `Delete(id)` for GalleryItem (section 4.1). -/
def deleteGalleryItem (s : Store) (gid : Nat) : Except DbError Unit × Store :=
  if s.gallery.any (fun g => g.id == gid) then
    (.ok (), { s with gallery := s.gallery.filter (fun g => g.id != gid) })
  else (.error .NotFound, s)

/-- Modelled from the spec: `Create(fields)` for Message (section 4.1).
Required `visitor_id` or `content` absent fails with `ConstraintViolation`;
`subject` is capped at 255 characters; a `visitor_id` not identifying an
existing Visitor violates the foreign key to `visitors.id` and fails with
`ConstraintViolation`, storing nothing. -/
def createMessage (s : Store) (seed : Nat) (meta : CreateMeta) (f : MessageFields) :
    Except DbError MessageRow × Store :=
  match f.visitor_id, f.content with
  | none, _ => (.error .ConstraintViolation, s)
  | some _, none => (.error .ConstraintViolation, s)
  | some vid, some c =>
    if !fitsCap f.subject 255 then (.error .DataError, s)
    else if !(s.visitors.any (fun v => v.id == vid)) then (.error .ConstraintViolation, s)
    else
      let newId := meta.id.getD (uuid4 seed)
      if s.messages.any (fun m => m.id == newId) then (.error .ConstraintViolation, s)
      else
        let row : MessageRow :=
          ⟨newId, vid, f.subject, c,
            meta.created_at.getD s.clock, meta.updated_at.getD s.clock⟩
        (.ok row, { s with messages := s.messages ++ [row], clock := s.clock + 1 })

/-- Modelled from the spec: `Read(id)` for Message (section 4.1). -/
def readMessage (s : Store) (mid : Nat) : Except DbError MessageRow :=
  match s.messages.find? (fun m => m.id == mid) with
  | some m => .ok m
  | none => .error .NotFound

/-- Modelled from the spec: `Update(id, partial fields)` for Message
(section 4.1).  A supplied `visitor_id` is re-checked against the foreign
key; on success the update timestamp is refreshed from the clock. -/
def updateMessage (s : Store) (mid : Nat) (f : MessageFields) :
    Except DbError MessageRow × Store :=
  match s.messages.find? (fun m => m.id == mid) with
  | none => (.error .NotFound, s)
  | some old =>
    if !fitsCap f.subject 255 then (.error .DataError, s)
    else
      match f.visitor_id with
      | some vid =>
        if !(s.visitors.any (fun v => v.id == vid)) then (.error .ConstraintViolation, s)
        else
          let row : MessageRow :=
            ⟨old.id, vid, applyOpt f.subject old.subject, f.content.getD old.content,
              old.created_at, s.clock⟩
          (.ok row,
            { s with messages := s.messages.map (fun m => if m.id == mid then row else m),
                     clock := s.clock + 1 })
      | none =>
        let row : MessageRow :=
          ⟨old.id, old.visitor_id, applyOpt f.subject old.subject, f.content.getD old.content,
            old.created_at, s.clock⟩
        (.ok row,
          { s with messages := s.messages.map (fun m => if m.id == mid then row else m),
                   clock := s.clock + 1 })

/-- Modelled from the spec: `Delete(id)` for Message (section 4.1). -/
def deleteMessage (s : Store) (mid : Nat) : Except DbError Unit × Store :=
  if s.messages.any (fun m => m.id == mid) then
    (.ok (), { s with messages := s.messages.filter (fun m => m.id != mid) })
  else (.error .NotFound, s)

/-! ### Table schemas and serialization

`ToDictMixin.to_dict` iterates `self.__table__.columns`, producing a flat
mapping of column names to stored values; relationship attributes
(`Visitor.messages`, `Message.visitor`) are not table columns and are
excluded.  Column-name resolution for declarative mixins follows Python
attribute lookup: an attribute redeclared on the model class shadows the
mixin's attribute of the same name, so each name yields exactly one column
in the table (a table cannot carry two columns of the same name). -/

/-- Column names contributed by `UUIDPrimaryKeyMixin`. -/
def uuidPrimaryKeyMixinColumns : List String := ["id"]

/-- Column names contributed by `TimestampMixin`. -/
def timestampMixinColumns : List String := ["created_at", "updated_at"]

/-- Column names contributed by both mixins shared by the four models. -/
def mixinColumns : List String := uuidPrimaryKeyMixinColumns ++ timestampMixinColumns

/-- Declarative-mixin column resolution: a name declared on the model class
shadows a mixin column of the same name. -/
def resolveColumns (mixins own : List String) : List String :=
  mixins.filter (fun c => !own.contains c) ++ own

/-- Column names declared in the `Visitor` class body itself. -/
def visitorDeclaredColumns : List String := ["email", "name", "subscribed_at"]

/-- Column names declared in the `Achievement` class body itself. -/
def achievementDeclaredColumns : List String := ["title", "year", "description", "category"]

/-- Column names declared in the `GalleryItem` class body itself. -/
def galleryDeclaredColumns : List String := ["image_url", "caption", "year"]

/-- Column names declared in the `Message` class body itself — including its
explicit redeclaration of `created_at` alongside the mixin's. -/
def messageDeclaredColumns : List String := ["visitor_id", "subject", "content", "created_at"]

/-- Columns of table `visitors`. -/
def visitorTableColumns : List String :=
  resolveColumns mixinColumns visitorDeclaredColumns

/-- Columns of table `achievements`. -/
def achievementTableColumns : List String :=
  resolveColumns mixinColumns achievementDeclaredColumns

/-- Columns of table `gallery`. -/
def galleryTableColumns : List String :=
  resolveColumns mixinColumns galleryDeclaredColumns

/-- Columns of table `messages`.  The model class redeclares `created_at`
alongside the mixin, so resolution keeps the class's single `created_at`. -/
def messageTableColumns : List String :=
  resolveColumns mixinColumns messageDeclaredColumns

/-- Relationship attributes of each model; they are not columns and are not
serialized. -/
def visitorRelationshipFields : List String := ["messages"]

def messageRelationshipFields : List String := ["visitor"]

/-- A serialized column value (the codomain of `to_dict`). -/
inductive Value where
  | uuid : Nat → Value
  | str : String → Value
  | optStr : Option String → Value
  | time : Nat → Value
  | optTime : Option Nat → Value
  | optInt : Option Int → Value
deriving DecidableEq, Repr

/-- `ToDictMixin.to_dict` for a Visitor row: one entry per column of
`visitors`, in table-column order, holding the stored value. -/
def VisitorRow.to_dict (v : VisitorRow) : List (String × Value) :=
  [("id", .uuid v.id), ("created_at", .time v.created_at), ("updated_at", .time v.updated_at),
    ("email", .str v.email), ("name", .optStr v.name),
    ("subscribed_at", .optTime v.subscribed_at)]

/-- `ToDictMixin.to_dict` for an Achievement row. -/
def AchievementRow.to_dict (a : AchievementRow) : List (String × Value) :=
  [("id", .uuid a.id), ("created_at", .time a.created_at), ("updated_at", .time a.updated_at),
    ("title", .str a.title), ("year", .optInt a.year),
    ("description", .optStr a.description), ("category", .optStr a.category)]

/-- `ToDictMixin.to_dict` for a GalleryItem row. -/
def GalleryItemRow.to_dict (g : GalleryItemRow) : List (String × Value) :=
  [("id", .uuid g.id), ("created_at", .time g.created_at), ("updated_at", .time g.updated_at),
    ("image_url", .str g.image_url), ("caption", .optStr g.caption), ("year", .optInt g.year)]

/-- `ToDictMixin.to_dict` for a Message row: the columns of `messages` only;
the `visitor` relationship is not a column and does not appear. -/
def MessageRow.to_dict (m : MessageRow) : List (String × Value) :=
  [("id", .uuid m.id), ("updated_at", .time m.updated_at), ("visitor_id", .uuid m.visitor_id),
    ("subject", .optStr m.subject), ("content", .str m.content),
    ("created_at", .time m.created_at)]

/-! ### Reachability and invariants -/

/-- One store operation of any kind, with arbitrary arguments, as a
transition on stores (errors leave the store unchanged, so failed operations
are also steps). -/
inductive Step : Store → Store → Prop where
  | createV (s : Store) (seed : Nat) (meta : CreateMeta) (f : VisitorFields) :
      Step s (createVisitor s seed meta f).2
  | createA (s : Store) (seed : Nat) (meta : CreateMeta) (f : AchievementFields) :
      Step s (createAchievement s seed meta f).2
  | createG (s : Store) (seed : Nat) (meta : CreateMeta) (f : GalleryItemFields) :
      Step s (createGalleryItem s seed meta f).2
  | createM (s : Store) (seed : Nat) (meta : CreateMeta) (f : MessageFields) :
      Step s (createMessage s seed meta f).2
  | updateV (s : Store) (vid : Nat) (f : VisitorFields) :
      Step s (updateVisitor s vid f).2
  | updateA (s : Store) (aid : Nat) (f : AchievementFields) :
      Step s (updateAchievement s aid f).2
  | updateG (s : Store) (gid : Nat) (f : GalleryItemFields) :
      Step s (updateGalleryItem s gid f).2
  | updateM (s : Store) (mid : Nat) (f : MessageFields) :
      Step s (updateMessage s mid f).2
  | deleteV (s : Store) (vid : Nat) : Step s (deleteVisitor s vid).2
  | deleteA (s : Store) (aid : Nat) : Step s (deleteAchievement s aid).2
  | deleteG (s : Store) (gid : Nat) : Step s (deleteGalleryItem s gid).2
  | deleteM (s : Store) (mid : Nat) : Step s (deleteMessage s mid).2

/-- Store states reachable from the empty store by store operations. -/
inductive Reachable : Store → Prop where
  | init : Reachable emptyStore
  | step (s s' : Store) : Reachable s → Step s s' → Reachable s'

/-- Referential integrity: every stored Message's `visitor_id` identifies a
stored Visitor (the foreign key to `visitors.id`). -/
def fkInv (s : Store) : Prop :=
  ∀ m ∈ s.messages, ∃ v ∈ s.visitors, v.id = m.visitor_id

/-- Store-wide email uniqueness over the `visitors` table. -/
def emailsUnique (s : Store) : Prop :=
  (s.visitors.map (fun v => v.email)).Nodup

/-! ### Concrete sample data used by the witnesses -/

def sampleVisitor1 : VisitorRow := ⟨1, "a@x.com", none, none, 0, 0⟩

def sampleVisitor2 : VisitorRow := ⟨2, "b@x.com", some "B", none, 1, 1⟩

def sampleAchievement : AchievementRow := ⟨20, "The 900", some 1999, none, none, 0, 0⟩

def sampleGalleryItem : GalleryItemRow := ⟨30, "img/900.jpg", none, some 1999, 0, 0⟩

def sampleMessage10 : MessageRow := ⟨10, 1, none, "hi", 2, 2⟩

def sampleMessage11 : MessageRow := ⟨11, 1, some "s", "yo", 3, 3⟩

def sampleMessage12 : MessageRow := ⟨12, 2, none, "ok", 4, 4⟩

def sampleStore : Store :=
  ⟨[sampleVisitor1, sampleVisitor2], [sampleAchievement], [sampleGalleryItem],
    [sampleMessage10, sampleMessage11, sampleMessage12], 5⟩

/-! ### Characterization lemmas for the operations -/

/-- `createVisitor` either fails leaving the store unchanged or appends the
new row and advances the clock. -/
theorem createVisitor_spec (s : Store) (seed : Nat) (meta : CreateMeta) (f : VisitorFields) :
    (∃ err, createVisitor s seed meta f = (.error err, s)) ∨
    (∃ row, createVisitor s seed meta f =
       (.ok row, { s with visitors := s.visitors ++ [row], clock := s.clock + 1 })) := by
  obtain ⟨fe, fn, fs⟩ := f
  cases fe
  · exact .inl ⟨_, rfl⟩
  · unfold createVisitor
    dsimp only
    split
    · exact .inl ⟨_, rfl⟩
    split
    · exact .inl ⟨_, rfl⟩
    split
    · exact .inl ⟨_, rfl⟩
    split
    · exact .inl ⟨_, rfl⟩
    · exact .inr ⟨_, rfl⟩

/-- Inversion of a successful `createVisitor`: all checks passed and the
returned row carries the input fields with assigned id and timestamps. -/
theorem createVisitor_ok {s : Store} {seed : Nat} {meta : CreateMeta} {f : VisitorFields}
    {row : VisitorRow} {s' : Store} (h : createVisitor s seed meta f = (.ok row, s')) :
    f.email = some row.email ∧ row.email.length ≤ 255 ∧ fitsCap f.name 255 = true ∧
    (∀ v ∈ s.visitors, v.email ≠ row.email) ∧
    row.id = meta.id.getD (uuid4 seed) ∧ (∀ v ∈ s.visitors, v.id ≠ row.id) ∧
    row.name = f.name ∧ row.subscribed_at = f.subscribed_at ∧
    row.created_at = meta.created_at.getD s.clock ∧
    row.updated_at = meta.updated_at.getD s.clock ∧
    s' = { s with visitors := s.visitors ++ [row], clock := s.clock + 1 } := by
  obtain ⟨fe, fn, fs⟩ := f
  cases fe with
  | none => exact absurd h (by simp [createVisitor])
  | some e =>
    unfold createVisitor at h
    dsimp only at h
    split at h
    · exact absurd h (by simp)
    split at h
    · exact absurd h (by simp)
    split at h
    · exact absurd h (by simp)
    split at h
    · exact absurd h (by simp)
    · rename_i h1 h2 h3 h4
      rw [Prod.mk.injEq, Except.ok.injEq] at h
      obtain ⟨hrow, hs⟩ := h
      subst hrow
      simp [fitsCap] at h1
      simp at h3 h4
      exact ⟨rfl, h1, by simpa using h2, h3, rfl, h4, rfl, rfl, rfl, rfl, hs.symm⟩

/-- `createAchievement` either fails leaving the store unchanged or appends
the new row and advances the clock. -/
theorem createAchievement_spec (s : Store) (seed : Nat) (meta : CreateMeta)
    (f : AchievementFields) :
    (∃ err, createAchievement s seed meta f = (.error err, s)) ∨
    (∃ row, createAchievement s seed meta f =
       (.ok row, { s with achievements := s.achievements ++ [row], clock := s.clock + 1 })) := by
  obtain ⟨ft, fy, fd, fc⟩ := f
  cases ft
  · exact .inl ⟨_, rfl⟩
  · unfold createAchievement
    dsimp only
    split
    · exact .inl ⟨_, rfl⟩
    split
    · exact .inl ⟨_, rfl⟩
    split
    · exact .inl ⟨_, rfl⟩
    · exact .inr ⟨_, rfl⟩

/-- Inversion of a successful `createAchievement`. -/
theorem createAchievement_ok {s : Store} {seed : Nat} {meta : CreateMeta}
    {f : AchievementFields} {row : AchievementRow} {s' : Store}
    (h : createAchievement s seed meta f = (.ok row, s')) :
    f.title = some row.title ∧ row.title.length ≤ 255 ∧ fitsCap f.category 255 = true ∧
    row.id = meta.id.getD (uuid4 seed) ∧ (∀ a ∈ s.achievements, a.id ≠ row.id) ∧
    row.year = f.year ∧ row.description = f.description ∧ row.category = f.category ∧
    row.created_at = meta.created_at.getD s.clock ∧
    row.updated_at = meta.updated_at.getD s.clock ∧
    s' = { s with achievements := s.achievements ++ [row], clock := s.clock + 1 } := by
  obtain ⟨ft, fy, fd, fc⟩ := f
  cases ft with
  | none => exact absurd h (by simp [createAchievement])
  | some t =>
    unfold createAchievement at h
    dsimp only at h
    split at h
    · exact absurd h (by simp)
    split at h
    · exact absurd h (by simp)
    split at h
    · exact absurd h (by simp)
    · rename_i h1 h2 h3
      rw [Prod.mk.injEq, Except.ok.injEq] at h
      obtain ⟨hrow, hs⟩ := h
      subst hrow
      simp [fitsCap] at h1
      simp at h3
      exact ⟨rfl, h1, by simpa using h2, rfl, h3, rfl, rfl, rfl, rfl, rfl, hs.symm⟩

/-- `createGalleryItem` either fails leaving the store unchanged or appends
the new row and advances the clock. -/
theorem createGalleryItem_spec (s : Store) (seed : Nat) (meta : CreateMeta)
    (f : GalleryItemFields) :
    (∃ err, createGalleryItem s seed meta f = (.error err, s)) ∨
    (∃ row, createGalleryItem s seed meta f =
       (.ok row, { s with gallery := s.gallery ++ [row], clock := s.clock + 1 })) := by
  obtain ⟨fu, fc, fy⟩ := f
  cases fu
  · exact .inl ⟨_, rfl⟩
  · unfold createGalleryItem
    dsimp only
    split
    · exact .inl ⟨_, rfl⟩
    split
    · exact .inl ⟨_, rfl⟩
    split
    · exact .inl ⟨_, rfl⟩
    · exact .inr ⟨_, rfl⟩

/-- Inversion of a successful `createGalleryItem`. -/
theorem createGalleryItem_ok {s : Store} {seed : Nat} {meta : CreateMeta}
    {f : GalleryItemFields} {row : GalleryItemRow} {s' : Store}
    (h : createGalleryItem s seed meta f = (.ok row, s')) :
    f.image_url = some row.image_url ∧ row.image_url.length ≤ 2048 ∧
    fitsCap f.caption 500 = true ∧
    row.id = meta.id.getD (uuid4 seed) ∧ (∀ g ∈ s.gallery, g.id ≠ row.id) ∧
    row.caption = f.caption ∧ row.year = f.year ∧
    row.created_at = meta.created_at.getD s.clock ∧
    row.updated_at = meta.updated_at.getD s.clock ∧
    s' = { s with gallery := s.gallery ++ [row], clock := s.clock + 1 } := by
  obtain ⟨fu, fc, fy⟩ := f
  cases fu with
  | none => exact absurd h (by simp [createGalleryItem])
  | some u =>
    unfold createGalleryItem at h
    dsimp only at h
    split at h
    · exact absurd h (by simp)
    split at h
    · exact absurd h (by simp)
    split at h
    · exact absurd h (by simp)
    · rename_i h1 h2 h3
      rw [Prod.mk.injEq, Except.ok.injEq] at h
      obtain ⟨hrow, hs⟩ := h
      subst hrow
      simp [fitsCap] at h1
      simp at h3
      exact ⟨rfl, h1, by simpa using h2, rfl, h3, rfl, rfl, rfl, rfl, hs.symm⟩

/-- `createMessage` either fails leaving the store unchanged or appends the
new row and advances the clock. -/
theorem createMessage_spec (s : Store) (seed : Nat) (meta : CreateMeta) (f : MessageFields) :
    (∃ err, createMessage s seed meta f = (.error err, s)) ∨
    (∃ row, createMessage s seed meta f =
       (.ok row, { s with messages := s.messages ++ [row], clock := s.clock + 1 })) := by
  obtain ⟨fv, fsub, fc⟩ := f
  cases fv
  · exact .inl ⟨_, rfl⟩
  · cases fc
    · exact .inl ⟨_, rfl⟩
    · unfold createMessage
      dsimp only
      split
      · exact .inl ⟨_, rfl⟩
      split
      · exact .inl ⟨_, rfl⟩
      split
      · exact .inl ⟨_, rfl⟩
      · exact .inr ⟨_, rfl⟩

/-- Inversion of a successful `createMessage`: in particular the foreign-key
check passed, so the new row's `visitor_id` identifies a stored Visitor. -/
theorem createMessage_ok {s : Store} {seed : Nat} {meta : CreateMeta} {f : MessageFields}
    {row : MessageRow} {s' : Store} (h : createMessage s seed meta f = (.ok row, s')) :
    f.visitor_id = some row.visitor_id ∧ f.content = some row.content ∧
    fitsCap f.subject 255 = true ∧
    (∃ v ∈ s.visitors, v.id = row.visitor_id) ∧
    row.id = meta.id.getD (uuid4 seed) ∧ (∀ m ∈ s.messages, m.id ≠ row.id) ∧
    row.subject = f.subject ∧
    row.created_at = meta.created_at.getD s.clock ∧
    row.updated_at = meta.updated_at.getD s.clock ∧
    s' = { s with messages := s.messages ++ [row], clock := s.clock + 1 } := by
  obtain ⟨fv, fsub, fc⟩ := f
  cases fv with
  | none => exact absurd h (by simp [createMessage])
  | some vid =>
    cases fc with
    | none => exact absurd h (by simp [createMessage])
    | some c =>
      unfold createMessage at h
      dsimp only at h
      split at h
      · exact absurd h (by simp)
      split at h
      · exact absurd h (by simp)
      split at h
      · exact absurd h (by simp)
      · rename_i h1 h2 h3
        rw [Prod.mk.injEq, Except.ok.injEq] at h
        obtain ⟨hrow, hs⟩ := h
        subst hrow
        simp at h2 h3
        exact ⟨rfl, rfl, by simpa using h1, h2, rfl, h3, rfl, rfl, rfl, hs.symm⟩

/-- `updateVisitor` either fails leaving the store unchanged or replaces the
matching row and advances the clock. -/
theorem updateVisitor_spec (s : Store) (vid : Nat) (f : VisitorFields) :
    (∃ err, updateVisitor s vid f = (.error err, s)) ∨
    (∃ row, updateVisitor s vid f =
       (.ok row, { s with
                    visitors := s.visitors.map (fun v => if v.id == vid then row else v),
                    clock := s.clock + 1 })) := by
  unfold updateVisitor
  dsimp only
  split
  · exact .inl ⟨_, rfl⟩
  · split
    · exact .inl ⟨_, rfl⟩
    split
    · exact .inl ⟨_, rfl⟩
    split
    · exact .inl ⟨_, rfl⟩
    · exact .inr ⟨_, rfl⟩

/-- Inversion of a successful `updateVisitor`: the row existed, keeps its id
and creation timestamp, applies the partial fields, and gets the clock as its
new update timestamp. -/
theorem updateVisitor_ok {s : Store} {vid : Nat} {f : VisitorFields} {row : VisitorRow}
    {s' : Store} (h : updateVisitor s vid f = (.ok row, s')) :
    ∃ old, s.visitors.find? (fun v => v.id == vid) = some old ∧ old.id = vid ∧
      fitsCap f.email 255 = true ∧ fitsCap f.name 255 = true ∧
      row.id = old.id ∧ row.email = f.email.getD old.email ∧
      row.name = applyOpt f.name old.name ∧
      row.subscribed_at = applyOpt f.subscribed_at old.subscribed_at ∧
      row.created_at = old.created_at ∧ row.updated_at = s.clock ∧
      s' = { s with
             visitors := s.visitors.map (fun v => if v.id == vid then row else v),
             clock := s.clock + 1 } := by
  unfold updateVisitor at h
  dsimp only at h
  split at h
  · exact absurd h (by simp)
  · rename_i old hfind
    split at h
    · exact absurd h (by simp)
    split at h
    · exact absurd h (by simp)
    split at h
    · exact absurd h (by simp)
    · rename_i hc1 hc2 hc3
      rw [Prod.mk.injEq, Except.ok.injEq] at h
      obtain ⟨hrow, hs⟩ := h
      subst hrow
      exact ⟨old, hfind, by simpa using List.find?_some hfind, by simpa using hc1,
        by simpa using hc2, rfl, rfl, rfl, rfl, rfl, rfl, hs.symm⟩

/-- `updateAchievement` either fails leaving the store unchanged or replaces
the matching row and advances the clock. -/
theorem updateAchievement_spec (s : Store) (aid : Nat) (f : AchievementFields) :
    (∃ err, updateAchievement s aid f = (.error err, s)) ∨
    (∃ row, updateAchievement s aid f =
       (.ok row, { s with
                    achievements := s.achievements.map (fun a => if a.id == aid then row else a),
                    clock := s.clock + 1 })) := by
  unfold updateAchievement
  split
  · exact .inl ⟨_, rfl⟩
  · split
    · exact .inl ⟨_, rfl⟩
    split
    · exact .inl ⟨_, rfl⟩
    · exact .inr ⟨_, rfl⟩

/-- Inversion of a successful `updateAchievement`. -/
theorem updateAchievement_ok {s : Store} {aid : Nat} {f : AchievementFields}
    {row : AchievementRow} {s' : Store} (h : updateAchievement s aid f = (.ok row, s')) :
    ∃ old, s.achievements.find? (fun a => a.id == aid) = some old ∧ old.id = aid ∧
      fitsCap f.title 255 = true ∧ fitsCap f.category 255 = true ∧
      row.id = old.id ∧ row.title = f.title.getD old.title ∧
      row.created_at = old.created_at ∧ row.updated_at = s.clock ∧
      s' = { s with
             achievements := s.achievements.map (fun a => if a.id == aid then row else a),
             clock := s.clock + 1 } := by
  unfold updateAchievement at h
  split at h
  · exact absurd h (by simp)
  · rename_i old hfind
    split at h
    · exact absurd h (by simp)
    split at h
    · exact absurd h (by simp)
    · rename_i hc1 hc2
      rw [Prod.mk.injEq, Except.ok.injEq] at h
      obtain ⟨hrow, hs⟩ := h
      subst hrow
      exact ⟨old, hfind, by simpa using List.find?_some hfind, by simpa using hc1,
        by simpa using hc2, rfl, rfl, rfl, rfl, hs.symm⟩

/-- `updateGalleryItem` either fails leaving the store unchanged or replaces
the matching row and advances the clock. -/
theorem updateGalleryItem_spec (s : Store) (gid : Nat) (f : GalleryItemFields) :
    (∃ err, updateGalleryItem s gid f = (.error err, s)) ∨
    (∃ row, updateGalleryItem s gid f =
       (.ok row, { s with
                    gallery := s.gallery.map (fun g => if g.id == gid then row else g),
                    clock := s.clock + 1 })) := by
  unfold updateGalleryItem
  split
  · exact .inl ⟨_, rfl⟩
  · split
    · exact .inl ⟨_, rfl⟩
    split
    · exact .inl ⟨_, rfl⟩
    · exact .inr ⟨_, rfl⟩

/-- Inversion of a successful `updateGalleryItem`. -/
theorem updateGalleryItem_ok {s : Store} {gid : Nat} {f : GalleryItemFields}
    {row : GalleryItemRow} {s' : Store} (h : updateGalleryItem s gid f = (.ok row, s')) :
    ∃ old, s.gallery.find? (fun g => g.id == gid) = some old ∧ old.id = gid ∧
      fitsCap f.image_url 2048 = true ∧ fitsCap f.caption 500 = true ∧
      row.id = old.id ∧ row.image_url = f.image_url.getD old.image_url ∧
      row.created_at = old.created_at ∧ row.updated_at = s.clock ∧
      s' = { s with
             gallery := s.gallery.map (fun g => if g.id == gid then row else g),
             clock := s.clock + 1 } := by
  unfold updateGalleryItem at h
  split at h
  · exact absurd h (by simp)
  · rename_i old hfind
    split at h
    · exact absurd h (by simp)
    split at h
    · exact absurd h (by simp)
    · rename_i hc1 hc2
      rw [Prod.mk.injEq, Except.ok.injEq] at h
      obtain ⟨hrow, hs⟩ := h
      subst hrow
      exact ⟨old, hfind, by simpa using List.find?_some hfind, by simpa using hc1,
        by simpa using hc2, rfl, rfl, rfl, rfl, hs.symm⟩

/-- `updateMessage` either fails leaving the store unchanged or replaces the
matching row and advances the clock. -/
theorem updateMessage_spec (s : Store) (mid : Nat) (f : MessageFields) :
    (∃ err, updateMessage s mid f = (.error err, s)) ∨
    (∃ row, updateMessage s mid f =
       (.ok row, { s with
                    messages := s.messages.map (fun m => if m.id == mid then row else m),
                    clock := s.clock + 1 })) := by
  unfold updateMessage
  split
  · exact .inl ⟨_, rfl⟩
  · split
    · exact .inl ⟨_, rfl⟩
    · split
      · split
        · exact .inl ⟨_, rfl⟩
        · exact .inr ⟨_, rfl⟩
      · exact .inr ⟨_, rfl⟩

/-- Inversion of a successful `updateMessage`: the row existed, keeps its id
and creation timestamp, and when a new `visitor_id` was supplied it passed
the foreign-key check. -/
theorem updateMessage_ok {s : Store} {mid : Nat} {f : MessageFields} {row : MessageRow}
    {s' : Store} (h : updateMessage s mid f = (.ok row, s')) :
    ∃ old, s.messages.find? (fun m => m.id == mid) = some old ∧ old.id = mid ∧
      fitsCap f.subject 255 = true ∧
      row.id = old.id ∧ row.visitor_id = f.visitor_id.getD old.visitor_id ∧
      (f.visitor_id = none ∨ ∃ v ∈ s.visitors, v.id = row.visitor_id) ∧
      row.subject = applyOpt f.subject old.subject ∧
      row.content = f.content.getD old.content ∧
      row.created_at = old.created_at ∧ row.updated_at = s.clock ∧
      s' = { s with
             messages := s.messages.map (fun m => if m.id == mid then row else m),
             clock := s.clock + 1 } := by
  unfold updateMessage at h
  split at h
  · exact absurd h (by simp)
  · rename_i old hfind
    split at h
    · exact absurd h (by simp)
    · rename_i hcap
      split at h
      · rename_i vid hv
        split at h
        · exact absurd h (by simp)
        · rename_i hfk
          rw [Prod.mk.injEq, Except.ok.injEq] at h
          obtain ⟨hrow, hs⟩ := h
          subst hrow
          simp at hfk
          exact ⟨old, hfind, by simpa using List.find?_some hfind,
            by simpa using hcap, rfl,
            by rw [hv]; rfl, .inr hfk, rfl, rfl, rfl, rfl, hs.symm⟩
      · rename_i hv
        rw [Prod.mk.injEq, Except.ok.injEq] at h
        obtain ⟨hrow, hs⟩ := h
        subst hrow
        exact ⟨old, hfind, by simpa using List.find?_some hfind,
          by simpa using hcap, rfl,
          by rw [hv]; rfl, .inl hv, rfl, rfl, rfl, rfl, hs.symm⟩

/-- `deleteVisitor` fails with `NotFound` when no visitor has the id, and
otherwise removes the visitor row together with every message row referencing
it, in one step. -/
theorem deleteVisitor_spec (s : Store) (vid : Nat) :
    ((∀ v ∈ s.visitors, v.id ≠ vid) ∧ deleteVisitor s vid = (.error .NotFound, s)) ∨
    deleteVisitor s vid =
      (.ok (), { s with
                 visitors := s.visitors.filter (fun v => v.id != vid),
                 messages := s.messages.filter (fun m => m.visitor_id != vid) }) := by
  unfold deleteVisitor
  split
  · exact .inr rfl
  · rename_i hno
    simp at hno
    exact .inl ⟨hno, rfl⟩

/-- `deleteAchievement` fails with `NotFound` or removes the matching row. -/
theorem deleteAchievement_spec (s : Store) (aid : Nat) :
    ((∀ a ∈ s.achievements, a.id ≠ aid) ∧ deleteAchievement s aid = (.error .NotFound, s)) ∨
    deleteAchievement s aid =
      (.ok (), { s with achievements := s.achievements.filter (fun a => a.id != aid) }) := by
  unfold deleteAchievement
  split
  · exact .inr rfl
  · rename_i hno
    simp at hno
    exact .inl ⟨hno, rfl⟩

/-- `deleteGalleryItem` fails with `NotFound` or removes the matching row. -/
theorem deleteGalleryItem_spec (s : Store) (gid : Nat) :
    ((∀ g ∈ s.gallery, g.id ≠ gid) ∧ deleteGalleryItem s gid = (.error .NotFound, s)) ∨
    deleteGalleryItem s gid =
      (.ok (), { s with gallery := s.gallery.filter (fun g => g.id != gid) }) := by
  unfold deleteGalleryItem
  split
  · exact .inr rfl
  · rename_i hno
    simp at hno
    exact .inl ⟨hno, rfl⟩

/-- `deleteMessage` fails with `NotFound` or removes the matching row. -/
theorem deleteMessage_spec (s : Store) (mid : Nat) :
    ((∀ m ∈ s.messages, m.id ≠ mid) ∧ deleteMessage s mid = (.error .NotFound, s)) ∨
    deleteMessage s mid =
      (.ok (), { s with messages := s.messages.filter (fun m => m.id != mid) }) := by
  unfold deleteMessage
  split
  · exact .inr rfl
  · rename_i hno
    simp at hno
    exact .inl ⟨hno, rfl⟩

/-! ### Preservation of referential integrity by every operation -/

theorem fkInv_createVisitor (s : Store) (seed : Nat) (meta : CreateMeta) (f : VisitorFields)
    (h : fkInv s) : fkInv (createVisitor s seed meta f).2 := by
  rcases createVisitor_spec s seed meta f with ⟨err, heq⟩ | ⟨row, heq⟩ <;> rw [heq]
  · exact h
  · intro m hm
    obtain ⟨v, hv, hid⟩ := h m hm
    exact ⟨v, List.mem_append_left _ hv, hid⟩

theorem fkInv_createAchievement (s : Store) (seed : Nat) (meta : CreateMeta)
    (f : AchievementFields) (h : fkInv s) : fkInv (createAchievement s seed meta f).2 := by
  rcases createAchievement_spec s seed meta f with ⟨err, heq⟩ | ⟨row, heq⟩ <;> rw [heq] <;>
    exact h

theorem fkInv_createGalleryItem (s : Store) (seed : Nat) (meta : CreateMeta)
    (f : GalleryItemFields) (h : fkInv s) : fkInv (createGalleryItem s seed meta f).2 := by
  rcases createGalleryItem_spec s seed meta f with ⟨err, heq⟩ | ⟨row, heq⟩ <;> rw [heq] <;>
    exact h

theorem fkInv_createMessage (s : Store) (seed : Nat) (meta : CreateMeta) (f : MessageFields)
    (h : fkInv s) : fkInv (createMessage s seed meta f).2 := by
  rcases createMessage_spec s seed meta f with ⟨err, heq⟩ | ⟨row, heq⟩ <;> rw [heq]
  · exact h
  · intro m hm
    rcases List.mem_append.mp hm with hm | hm
    · exact h m hm
    · rw [List.mem_singleton] at hm
      subst hm
      obtain ⟨-, -, -, hfk, -, -, -, -, -, -⟩ := createMessage_ok heq
      exact hfk

theorem fkInv_updateVisitor (s : Store) (vid : Nat) (f : VisitorFields)
    (h : fkInv s) : fkInv (updateVisitor s vid f).2 := by
  rcases updateVisitor_spec s vid f with ⟨err, heq⟩ | ⟨row, heq⟩ <;> rw [heq]
  · exact h
  · obtain ⟨old, hfind, holdid, -, -, hrowid, -, -, -, -, -, -⟩ := updateVisitor_ok heq
    intro m hm
    obtain ⟨v, hv, hid⟩ := h m hm
    by_cases hcase : v.id = vid
    · refine ⟨row, List.mem_map.mpr ⟨v, hv, by simp [hcase]⟩, ?_⟩
      rw [hrowid, holdid, ← hcase]
      exact hid
    · exact ⟨v, List.mem_map.mpr ⟨v, hv, by simp [hcase]⟩, hid⟩

theorem fkInv_updateAchievement (s : Store) (aid : Nat) (f : AchievementFields)
    (h : fkInv s) : fkInv (updateAchievement s aid f).2 := by
  rcases updateAchievement_spec s aid f with ⟨err, heq⟩ | ⟨row, heq⟩ <;> rw [heq] <;> exact h

theorem fkInv_updateGalleryItem (s : Store) (gid : Nat) (f : GalleryItemFields)
    (h : fkInv s) : fkInv (updateGalleryItem s gid f).2 := by
  rcases updateGalleryItem_spec s gid f with ⟨err, heq⟩ | ⟨row, heq⟩ <;> rw [heq] <;> exact h

theorem fkInv_updateMessage (s : Store) (mid : Nat) (f : MessageFields)
    (h : fkInv s) : fkInv (updateMessage s mid f).2 := by
  rcases updateMessage_spec s mid f with ⟨err, heq⟩ | ⟨row, heq⟩ <;> rw [heq]
  · exact h
  · obtain ⟨old, hfind, -, -, -, hgetD, hfk, -, -, -, -, -⟩ := updateMessage_ok heq
    intro m hm
    obtain ⟨m0, hm0, him⟩ := List.mem_map.mp hm
    by_cases hc : (m0.id == mid) = true
    · rw [if_pos hc] at him
      subst him
      rcases hfk with hnone | hsome
      · have hold : old ∈ s.messages := List.mem_of_find?_eq_some hfind
        obtain ⟨v, hv, hvid⟩ := h old hold
        rw [hnone] at hgetD
        rw [hgetD]
        exact ⟨v, hv, hvid⟩
      · exact hsome
    · rw [if_neg hc] at him
      subst him
      exact h m0 hm0

theorem fkInv_deleteVisitor (s : Store) (vid : Nat)
    (h : fkInv s) : fkInv (deleteVisitor s vid).2 := by
  rcases deleteVisitor_spec s vid with ⟨-, heq⟩ | heq <;> rw [heq]
  · exact h
  · intro m hm
    obtain ⟨hmem, hne⟩ := List.mem_filter.mp hm
    obtain ⟨v, hv, hid⟩ := h m hmem
    refine ⟨v, List.mem_filter.mpr ⟨hv, ?_⟩, hid⟩
    simp only [bne_iff_ne, ne_eq] at hne ⊢
    rw [hid]
    exact hne

theorem fkInv_deleteAchievement (s : Store) (aid : Nat)
    (h : fkInv s) : fkInv (deleteAchievement s aid).2 := by
  rcases deleteAchievement_spec s aid with ⟨-, heq⟩ | heq <;> rw [heq] <;> exact h

theorem fkInv_deleteGalleryItem (s : Store) (gid : Nat)
    (h : fkInv s) : fkInv (deleteGalleryItem s gid).2 := by
  rcases deleteGalleryItem_spec s gid with ⟨-, heq⟩ | heq <;> rw [heq] <;> exact h

theorem fkInv_deleteMessage (s : Store) (mid : Nat)
    (h : fkInv s) : fkInv (deleteMessage s mid).2 := by
  rcases deleteMessage_spec s mid with ⟨-, heq⟩ | heq <;> rw [heq]
  · exact h
  · intro m hm
    exact h m (List.mem_filter.mp hm).1

/-! ### Claims -/

/-- C9: in every reachable store state, every stored Message's `visitor_id`
references an existing Visitor — no operation (create, update, delete, or
cascade) can leave a Message whose owning Visitor is absent. -/
theorem c9_referential_integrity (s : Store) (h : Reachable s) : fkInv s := by
  induction h with
  | init => intro m hm; cases hm
  | step s s' _ hstep ih =>
    cases hstep with
    | createV seed meta f => exact fkInv_createVisitor s seed meta f ih
    | createA seed meta f => exact fkInv_createAchievement s seed meta f ih
    | createG seed meta f => exact fkInv_createGalleryItem s seed meta f ih
    | createM seed meta f => exact fkInv_createMessage s seed meta f ih
    | updateV vid f => exact fkInv_updateVisitor s vid f ih
    | updateA aid f => exact fkInv_updateAchievement s aid f ih
    | updateG gid f => exact fkInv_updateGalleryItem s gid f ih
    | updateM mid f => exact fkInv_updateMessage s mid f ih
    | deleteV vid => exact fkInv_deleteVisitor s vid ih
    | deleteA aid => exact fkInv_deleteAchievement s aid ih
    | deleteG gid => exact fkInv_deleteGalleryItem s gid ih
    | deleteM mid => exact fkInv_deleteMessage s mid ih

/-- Witness for C9 at a concrete reachable state: create a visitor, then a
message owned by it, and check the invariant there. -/
theorem c9_referential_integrity_witness :
    fkInv (createMessage (createVisitor emptyStore 1 noMeta
      ⟨some "a@x.com", none, none⟩).2 2 noMeta ⟨some 1, none, some "hi"⟩).2 :=
  c9_referential_integrity _
    (Reachable.step _ _ (Reachable.step _ _ Reachable.init (Step.createV _ _ _ _))
      (Step.createM _ _ _ _))

/-- C3: creating a Message whose `visitor_id` does not identify an existing
Visitor (including an absent `visitor_id`) fails with `ConstraintViolation`
and stores nothing, provided the subject fits its column so the engine's
length check does not fire first. -/
theorem c3_message_fk_violation (s : Store) (seed : Nat) (meta : CreateMeta)
    (f : MessageFields) (hcap : fitsCap f.subject 255 = true)
    (hfk : ∀ v ∈ s.visitors, f.visitor_id ≠ some v.id) :
    createMessage s seed meta f = (.error .ConstraintViolation, s) := by
  obtain ⟨fv, fsub, fc⟩ := f
  cases fv with
  | none => rfl
  | some vid =>
    cases fc with
    | none => rfl
    | some c =>
      dsimp only at hcap hfk
      have hany : (s.visitors.any fun v => v.id == vid) = false := by
        simp only [List.any_eq_false, beq_iff_eq]
        intro v hv hh
        exact hfk v hv (by rw [hh])
      simp [createMessage, hcap, hany]

/-- Witness for C3: the sample store has no visitor with id 99, so creating a
message owned by 99 fails with `ConstraintViolation` and leaves the store
unchanged. -/
theorem c3_message_fk_violation_witness :
    fitsCap (none : Option String) 255 = true ∧
    (∀ v ∈ sampleStore.visitors, (some 99 : Option Nat) ≠ some v.id) ∧
    createMessage sampleStore 0 noMeta ⟨some 99, none, some "hello"⟩ =
      (.error .ConstraintViolation, sampleStore) :=
  ⟨rfl, by decide,
    c3_message_fk_violation sampleStore 0 noMeta ⟨some 99, none, some "hello"⟩ rfl (by decide)⟩

/-- C6: a valid Visitor Create returns a record whose email equals the input
email; when no identifier is supplied the identifier is drawn from the
128-bit generator `uuid4`, lies below 2^128, and (the draw being fresh) is
unique among all stored entities' identifiers. -/
theorem c6_create_visitor_email_and_fresh_id (s : Store) (seed : Nat) (meta : CreateMeta)
    (f : VisitorFields) (e : String) (row : VisitorRow) (s' : Store)
    (hm : meta.id = none) (hf : f.email = some e) (hfresh : uuid4 seed ∉ s.allIds)
    (h : createVisitor s seed meta f = (.ok row, s')) :
    row.email = e ∧ row.id = uuid4 seed ∧ row.id ∉ s.allIds ∧ row.id < 2 ^ 128 := by
  obtain ⟨he, -, -, -, hid, -, -, -, -, -, -⟩ := createVisitor_ok h
  rw [hm] at hid
  simp only [Option.getD_none] at hid
  rw [hf] at he
  refine ⟨(Option.some.inj he).symm, hid, hid ▸ hfresh, ?_⟩
  rw [hid]
  exact Nat.mod_lt _ (by norm_num)

/-- Witness for C6: create a visitor in the sample store with seed 77; the
drawn identifier 77 is fresh, below 2^128, and the email round-trips. -/
theorem c6_create_visitor_email_and_fresh_id_witness :
    (noMeta.id = none ∧ uuid4 77 ∉ sampleStore.allIds) ∧
    ((⟨77, "c@x.com", none, none, 5, 5⟩ : VisitorRow).email = "c@x.com" ∧
      (⟨77, "c@x.com", none, none, 5, 5⟩ : VisitorRow).id = uuid4 77 ∧
      (⟨77, "c@x.com", none, none, 5, 5⟩ : VisitorRow).id ∉ sampleStore.allIds ∧
      (⟨77, "c@x.com", none, none, 5, 5⟩ : VisitorRow).id < 2 ^ 128) :=
  ⟨⟨rfl, by decide⟩,
    c6_create_visitor_email_and_fresh_id sampleStore 77 noMeta ⟨some "c@x.com", none, none⟩
      "c@x.com" ⟨77, "c@x.com", none, none, 5, 5⟩
      ⟨[sampleVisitor1, sampleVisitor2, ⟨77, "c@x.com", none, none, 5, 5⟩],
        [sampleAchievement], [sampleGalleryItem],
        [sampleMessage10, sampleMessage11, sampleMessage12], 6⟩
      rfl rfl (by decide) rfl⟩

/-- C4: for every stored record of each of the four kinds, `to_dict` returns
a flat mapping whose keys are exactly the table's scalar column names, the
relationship attributes (`Visitor.messages`, `Message.visitor`) are excluded
from those columns, and looking up each column name yields the record's
stored scalar value unchanged. -/
theorem c4_serialize_scalar_projection :
    (∀ v : VisitorRow,
      v.to_dict.map Prod.fst = visitorTableColumns ∧
      "messages" ∉ visitorTableColumns ∧
      v.to_dict.lookup "id" = some (.uuid v.id) ∧
      v.to_dict.lookup "email" = some (.str v.email) ∧
      v.to_dict.lookup "name" = some (.optStr v.name) ∧
      v.to_dict.lookup "subscribed_at" = some (.optTime v.subscribed_at) ∧
      v.to_dict.lookup "created_at" = some (.time v.created_at) ∧
      v.to_dict.lookup "updated_at" = some (.time v.updated_at)) ∧
    (∀ a : AchievementRow,
      a.to_dict.map Prod.fst = achievementTableColumns ∧
      a.to_dict.lookup "id" = some (.uuid a.id) ∧
      a.to_dict.lookup "title" = some (.str a.title) ∧
      a.to_dict.lookup "year" = some (.optInt a.year) ∧
      a.to_dict.lookup "description" = some (.optStr a.description) ∧
      a.to_dict.lookup "category" = some (.optStr a.category) ∧
      a.to_dict.lookup "created_at" = some (.time a.created_at) ∧
      a.to_dict.lookup "updated_at" = some (.time a.updated_at)) ∧
    (∀ g : GalleryItemRow,
      g.to_dict.map Prod.fst = galleryTableColumns ∧
      g.to_dict.lookup "id" = some (.uuid g.id) ∧
      g.to_dict.lookup "image_url" = some (.str g.image_url) ∧
      g.to_dict.lookup "caption" = some (.optStr g.caption) ∧
      g.to_dict.lookup "year" = some (.optInt g.year) ∧
      g.to_dict.lookup "created_at" = some (.time g.created_at) ∧
      g.to_dict.lookup "updated_at" = some (.time g.updated_at)) ∧
    (∀ m : MessageRow,
      m.to_dict.map Prod.fst = messageTableColumns ∧
      "visitor" ∉ messageTableColumns ∧
      m.to_dict.lookup "id" = some (.uuid m.id) ∧
      m.to_dict.lookup "visitor_id" = some (.uuid m.visitor_id) ∧
      m.to_dict.lookup "subject" = some (.optStr m.subject) ∧
      m.to_dict.lookup "content" = some (.str m.content) ∧
      m.to_dict.lookup "created_at" = some (.time m.created_at) ∧
      m.to_dict.lookup "updated_at" = some (.time m.updated_at)) :=
  ⟨fun v => ⟨rfl, by decide, rfl, rfl, rfl, rfl, rfl, rfl⟩,
   fun a => ⟨rfl, rfl, rfl, rfl, rfl, rfl, rfl, rfl⟩,
   fun g => ⟨rfl, rfl, rfl, rfl, rfl, rfl, rfl⟩,
   fun m => ⟨rfl, by decide, rfl, rfl, rfl, rfl, rfl, rfl⟩⟩

/-- Witness for C4 at a concrete stored Message: the keys are the `messages`
columns and the content value round-trips. -/
theorem c4_serialize_scalar_projection_witness :
    sampleMessage10.to_dict.map Prod.fst = messageTableColumns ∧
    sampleMessage10.to_dict.lookup "content" = some (.str "hi") :=
  ⟨(c4_serialize_scalar_projection.2.2.2 sampleMessage10).1,
    (c4_serialize_scalar_projection.2.2.2 sampleMessage10).2.2.2.2.2.1⟩

/-- C8 counterexample: the persisted `messages` schema does not hold two
distinct creation-timestamp columns — `created_at` occurs exactly once among
the table's columns, so the claimed count of 2 is false. -/
theorem c8_counterexample : ¬ messageTableColumns.count "created_at" = 2 := by decide

/-- C8 amended: the Message class body does redeclare `created_at` alongside
the mixin's `created_at`, but under declarative-mixin attribute resolution the
redeclaration shadows the mixin column: the persisted `messages` schema holds
exactly one creation-timestamp column, and its column names are pairwise
distinct. -/
theorem c8_single_created_at_column :
    "created_at" ∈ timestampMixinColumns ∧
    "created_at" ∈ messageDeclaredColumns ∧
    messageTableColumns.count "created_at" = 1 ∧
    messageTableColumns.Nodup := by decide


/-- C7: for each entity kind, Create with a required field absent
(Visitor.email, Achievement.title, GalleryItem.image_url,
Message.visitor_id/content) fails with `ConstraintViolation` and stores
nothing; a successful Create assigns the identifier and the two timestamps
from the generator and clock when they are not supplied (keeping supplied
values otherwise) and the returned record is stored. -/
theorem c7_create_validates_and_assigns :
    (∀ (s : Store) (seed : Nat) (meta : CreateMeta) (f : VisitorFields),
      f.email = none → createVisitor s seed meta f = (.error .ConstraintViolation, s)) ∧
    (∀ (s : Store) (seed : Nat) (meta : CreateMeta) (f : AchievementFields),
      f.title = none → createAchievement s seed meta f = (.error .ConstraintViolation, s)) ∧
    (∀ (s : Store) (seed : Nat) (meta : CreateMeta) (f : GalleryItemFields),
      f.image_url = none → createGalleryItem s seed meta f = (.error .ConstraintViolation, s)) ∧
    (∀ (s : Store) (seed : Nat) (meta : CreateMeta) (f : MessageFields),
      f.visitor_id = none ∨ f.content = none →
      createMessage s seed meta f = (.error .ConstraintViolation, s)) ∧
    (∀ (s : Store) (seed : Nat) (meta : CreateMeta) (f : VisitorFields)
       (row : VisitorRow) (s' : Store), createVisitor s seed meta f = (.ok row, s') →
      row.id = meta.id.getD (uuid4 seed) ∧ row.created_at = meta.created_at.getD s.clock ∧
      row.updated_at = meta.updated_at.getD s.clock ∧ row ∈ s'.visitors) ∧
    (∀ (s : Store) (seed : Nat) (meta : CreateMeta) (f : AchievementFields)
       (row : AchievementRow) (s' : Store), createAchievement s seed meta f = (.ok row, s') →
      row.id = meta.id.getD (uuid4 seed) ∧ row.created_at = meta.created_at.getD s.clock ∧
      row.updated_at = meta.updated_at.getD s.clock ∧ row ∈ s'.achievements) ∧
    (∀ (s : Store) (seed : Nat) (meta : CreateMeta) (f : GalleryItemFields)
       (row : GalleryItemRow) (s' : Store), createGalleryItem s seed meta f = (.ok row, s') →
      row.id = meta.id.getD (uuid4 seed) ∧ row.created_at = meta.created_at.getD s.clock ∧
      row.updated_at = meta.updated_at.getD s.clock ∧ row ∈ s'.gallery) ∧
    (∀ (s : Store) (seed : Nat) (meta : CreateMeta) (f : MessageFields)
       (row : MessageRow) (s' : Store), createMessage s seed meta f = (.ok row, s') →
      row.id = meta.id.getD (uuid4 seed) ∧ row.created_at = meta.created_at.getD s.clock ∧
      row.updated_at = meta.updated_at.getD s.clock ∧ row ∈ s'.messages) := by
  refine ⟨?_, ?_, ?_, ?_, ?_, ?_, ?_, ?_⟩
  · intro s seed meta f hf
    obtain ⟨fe, fn, fs⟩ := f
    dsimp only at hf
    subst hf
    rfl
  · intro s seed meta f hf
    obtain ⟨ft, fy, fd, fc⟩ := f
    dsimp only at hf
    subst hf
    rfl
  · intro s seed meta f hf
    obtain ⟨fu, fc, fy⟩ := f
    dsimp only at hf
    subst hf
    rfl
  · intro s seed meta f hf
    obtain ⟨fv, fsub, fc⟩ := f
    dsimp only at hf
    rcases hf with hf | hf
    · subst hf
      rfl
    · subst hf
      cases fv <;> rfl
  · intro s seed meta f row s' h
    obtain ⟨-, -, -, -, hid, -, -, -, hca, hua, hs⟩ := createVisitor_ok h
    refine ⟨hid, hca, hua, ?_⟩
    rw [hs]
    exact List.mem_append_right _ (List.mem_singleton_self _)
  · intro s seed meta f row s' h
    obtain ⟨-, -, -, hid, -, -, -, -, hca, hua, hs⟩ := createAchievement_ok h
    refine ⟨hid, hca, hua, ?_⟩
    rw [hs]
    exact List.mem_append_right _ (List.mem_singleton_self _)
  · intro s seed meta f row s' h
    obtain ⟨-, -, -, hid, -, -, -, hca, hua, hs⟩ := createGalleryItem_ok h
    refine ⟨hid, hca, hua, ?_⟩
    rw [hs]
    exact List.mem_append_right _ (List.mem_singleton_self _)
  · intro s seed meta f row s' h
    obtain ⟨-, -, -, -, hid, -, -, hca, hua, hs⟩ := createMessage_ok h
    refine ⟨hid, hca, hua, ?_⟩
    rw [hs]
    exact List.mem_append_right _ (List.mem_singleton_self _)

/-- Witness for C7: concrete required-field failures for all four kinds and
concrete successful creations with assigned identifier and timestamps. -/
theorem c7_create_validates_and_assigns_witness :
    createVisitor emptyStore 3 noMeta ⟨none, some "n", none⟩ =
      (.error .ConstraintViolation, emptyStore) ∧
    createAchievement emptyStore 3 noMeta ⟨none, none, none, none⟩ =
      (.error .ConstraintViolation, emptyStore) ∧
    createGalleryItem emptyStore 3 noMeta ⟨none, none, none⟩ =
      (.error .ConstraintViolation, emptyStore) ∧
    createMessage emptyStore 3 noMeta ⟨none, none, some "hi"⟩ =
      (.error .ConstraintViolation, emptyStore) ∧
    ((⟨3, "a@x.com", none, none, 0, 0⟩ : VisitorRow).id = noMeta.id.getD (uuid4 3) ∧
      (⟨3, "a@x.com", none, none, 0, 0⟩ : VisitorRow).created_at =
        noMeta.created_at.getD emptyStore.clock ∧
      (⟨3, "a@x.com", none, none, 0, 0⟩ : VisitorRow).updated_at =
        noMeta.updated_at.getD emptyStore.clock ∧
      (⟨3, "a@x.com", none, none, 0, 0⟩ : VisitorRow) ∈
        (⟨[⟨3, "a@x.com", none, none, 0, 0⟩], [], [], [], 1⟩ : Store).visitors) ∧
    ((⟨4, "title", none, none, none, 0, 0⟩ : AchievementRow).id = noMeta.id.getD (uuid4 4) ∧
      (⟨4, "title", none, none, none, 0, 0⟩ : AchievementRow) ∈
        (⟨[], [⟨4, "title", none, none, none, 0, 0⟩], [], [], 1⟩ : Store).achievements) ∧
    ((⟨5, "img/u.jpg", none, none, 0, 0⟩ : GalleryItemRow).id = noMeta.id.getD (uuid4 5) ∧
      (⟨5, "img/u.jpg", none, none, 0, 0⟩ : GalleryItemRow) ∈
        (⟨[], [], [⟨5, "img/u.jpg", none, none, 0, 0⟩], [], 1⟩ : Store).gallery) ∧
    ((⟨40, 1, none, "hey", 5, 5⟩ : MessageRow).id = noMeta.id.getD (uuid4 40) ∧
      (⟨40, 1, none, "hey", 5, 5⟩ : MessageRow) ∈
        (⟨[sampleVisitor1, sampleVisitor2], [sampleAchievement], [sampleGalleryItem],
          [sampleMessage10, sampleMessage11, sampleMessage12, ⟨40, 1, none, "hey", 5, 5⟩],
          6⟩ : Store).messages) := by
  refine ⟨c7_create_validates_and_assigns.1 emptyStore 3 noMeta ⟨none, some "n", none⟩ rfl,
    c7_create_validates_and_assigns.2.1 emptyStore 3 noMeta ⟨none, none, none, none⟩ rfl,
    c7_create_validates_and_assigns.2.2.1 emptyStore 3 noMeta ⟨none, none, none⟩ rfl,
    c7_create_validates_and_assigns.2.2.2.1 emptyStore 3 noMeta ⟨none, none, some "hi"⟩
      (.inl rfl), ?_, ?_, ?_, ?_⟩
  · exact c7_create_validates_and_assigns.2.2.2.2.1 emptyStore 3 noMeta
      ⟨some "a@x.com", none, none⟩ _ _ rfl
  · obtain ⟨h1, -, -, h4⟩ := c7_create_validates_and_assigns.2.2.2.2.2.1 emptyStore 4 noMeta
      ⟨some "title", none, none, none⟩ ⟨4, "title", none, none, none, 0, 0⟩
      ⟨[], [⟨4, "title", none, none, none, 0, 0⟩], [], [], 1⟩ rfl
    exact ⟨h1, h4⟩
  · obtain ⟨h1, -, -, h4⟩ := c7_create_validates_and_assigns.2.2.2.2.2.2.1 emptyStore 5 noMeta
      ⟨some "img/u.jpg", none, none⟩ ⟨5, "img/u.jpg", none, none, 0, 0⟩
      ⟨[], [], [⟨5, "img/u.jpg", none, none, 0, 0⟩], [], 1⟩ rfl
    exact ⟨h1, h4⟩
  · obtain ⟨h1, -, -, h4⟩ := c7_create_validates_and_assigns.2.2.2.2.2.2.2 sampleStore 40 noMeta
      ⟨some 1, none, some "hey"⟩ ⟨40, 1, none, "hey", 5, 5⟩
      ⟨[sampleVisitor1, sampleVisitor2], [sampleAchievement], [sampleGalleryItem],
        [sampleMessage10, sampleMessage11, sampleMessage12, ⟨40, 1, none, "hey", 5, 5⟩], 6⟩ rfl
    exact ⟨h1, h4⟩

/-- C5: a successful Update of any of the four entity kinds refreshes the
update timestamp to a value ≥ the previous update timestamp and ≥ the
(unchanged) creation timestamp — stated for states whose stored timestamps
do not exceed the store clock, as the clock discipline produces. -/
theorem c5_update_refreshes_timestamps :
    (∀ (s : Store) (vid : Nat) (f : VisitorFields) (old row : VisitorRow) (s' : Store),
      s.visitors.find? (fun v => v.id == vid) = some old →
      old.updated_at ≤ s.clock → old.created_at ≤ s.clock →
      updateVisitor s vid f = (.ok row, s') →
      old.updated_at ≤ row.updated_at ∧ row.created_at ≤ row.updated_at) ∧
    (∀ (s : Store) (aid : Nat) (f : AchievementFields) (old row : AchievementRow) (s' : Store),
      s.achievements.find? (fun a => a.id == aid) = some old →
      old.updated_at ≤ s.clock → old.created_at ≤ s.clock →
      updateAchievement s aid f = (.ok row, s') →
      old.updated_at ≤ row.updated_at ∧ row.created_at ≤ row.updated_at) ∧
    (∀ (s : Store) (gid : Nat) (f : GalleryItemFields) (old row : GalleryItemRow) (s' : Store),
      s.gallery.find? (fun g => g.id == gid) = some old →
      old.updated_at ≤ s.clock → old.created_at ≤ s.clock →
      updateGalleryItem s gid f = (.ok row, s') →
      old.updated_at ≤ row.updated_at ∧ row.created_at ≤ row.updated_at) ∧
    (∀ (s : Store) (mid : Nat) (f : MessageFields) (old row : MessageRow) (s' : Store),
      s.messages.find? (fun m => m.id == mid) = some old →
      old.updated_at ≤ s.clock → old.created_at ≤ s.clock →
      updateMessage s mid f = (.ok row, s') →
      old.updated_at ≤ row.updated_at ∧ row.created_at ≤ row.updated_at) := by
  refine ⟨?_, ?_, ?_, ?_⟩
  · intro s vid f old row s' hfind hu hc h
    obtain ⟨old', hfind', -, -, -, -, -, -, -, hca, hua, -⟩ := updateVisitor_ok h
    rw [hfind] at hfind'
    cases Option.some.inj hfind'
    exact ⟨hua ▸ hu, by rw [hca, hua]; exact hc⟩
  · intro s aid f old row s' hfind hu hc h
    obtain ⟨old', hfind', -, -, -, -, -, hca, hua, -⟩ := updateAchievement_ok h
    rw [hfind] at hfind'
    cases Option.some.inj hfind'
    exact ⟨hua ▸ hu, by rw [hca, hua]; exact hc⟩
  · intro s gid f old row s' hfind hu hc h
    obtain ⟨old', hfind', -, -, -, -, -, hca, hua, -⟩ := updateGalleryItem_ok h
    rw [hfind] at hfind'
    cases Option.some.inj hfind'
    exact ⟨hua ▸ hu, by rw [hca, hua]; exact hc⟩
  · intro s mid f old row s' hfind hu hc h
    obtain ⟨old', hfind', -, -, -, -, -, -, -, hca, hua, -⟩ := updateMessage_ok h
    rw [hfind] at hfind'
    cases Option.some.inj hfind'
    exact ⟨hua ▸ hu, by rw [hca, hua]; exact hc⟩

/-- Witness for C5: empty partial updates of the four sample rows in the
sample store refresh each update timestamp from 0 (resp. 2) to the clock 5. -/
theorem c5_update_refreshes_timestamps_witness :
    (sampleStore.visitors.find? (fun v => v.id == 1) = some sampleVisitor1 ∧
      sampleVisitor1.updated_at ≤ sampleStore.clock ∧
      sampleVisitor1.created_at ≤ sampleStore.clock) ∧
    (sampleVisitor1.updated_at ≤ (⟨1, "a@x.com", none, none, 0, 5⟩ : VisitorRow).updated_at ∧
      (⟨1, "a@x.com", none, none, 0, 5⟩ : VisitorRow).created_at ≤
        (⟨1, "a@x.com", none, none, 0, 5⟩ : VisitorRow).updated_at) ∧
    (sampleAchievement.updated_at ≤
        (⟨20, "The 900", some 1999, none, none, 0, 5⟩ : AchievementRow).updated_at ∧
      (⟨20, "The 900", some 1999, none, none, 0, 5⟩ : AchievementRow).created_at ≤
        (⟨20, "The 900", some 1999, none, none, 0, 5⟩ : AchievementRow).updated_at) ∧
    (sampleGalleryItem.updated_at ≤
        (⟨30, "img/900.jpg", none, some 1999, 0, 5⟩ : GalleryItemRow).updated_at ∧
      (⟨30, "img/900.jpg", none, some 1999, 0, 5⟩ : GalleryItemRow).created_at ≤
        (⟨30, "img/900.jpg", none, some 1999, 0, 5⟩ : GalleryItemRow).updated_at) ∧
    (sampleMessage10.updated_at ≤ (⟨10, 1, none, "hi", 2, 5⟩ : MessageRow).updated_at ∧
      (⟨10, 1, none, "hi", 2, 5⟩ : MessageRow).created_at ≤
        (⟨10, 1, none, "hi", 2, 5⟩ : MessageRow).updated_at) :=
  ⟨⟨rfl, by decide, by decide⟩,
    c5_update_refreshes_timestamps.1 sampleStore 1 ⟨none, none, none⟩ sampleVisitor1
      ⟨1, "a@x.com", none, none, 0, 5⟩ _ rfl (by decide) (by decide) rfl,
    c5_update_refreshes_timestamps.2.1 sampleStore 20 ⟨none, none, none, none⟩
      sampleAchievement ⟨20, "The 900", some 1999, none, none, 0, 5⟩ _ rfl
      (by decide) (by decide) rfl,
    c5_update_refreshes_timestamps.2.2.1 sampleStore 30 ⟨none, none, none⟩
      sampleGalleryItem ⟨30, "img/900.jpg", none, some 1999, 0, 5⟩ _ rfl
      (by decide) (by decide) rfl,
    c5_update_refreshes_timestamps.2.2.2 sampleStore 10 ⟨none, none, none⟩
      sampleMessage10 ⟨10, 1, none, "hi", 2, 5⟩ _ rfl (by decide) (by decide) rfl⟩


/-- C2: after a successful Visitor Create, a second Create with the same
email (and otherwise valid fields) fails with `ConstraintViolation` and
leaves the store unchanged; moreover every Visitor Create preserves
store-wide email uniqueness. -/
theorem c2_duplicate_email_rejected :
    (∀ (s : Store) (seed1 seed2 : Nat) (meta1 meta2 : CreateMeta) (f1 f2 : VisitorFields)
       (e : String) (row : VisitorRow) (s' : Store),
       f1.email = some e → f2.email = some e → fitsCap f2.name 255 = true →
       createVisitor s seed1 meta1 f1 = (.ok row, s') →
       createVisitor s' seed2 meta2 f2 = (.error .ConstraintViolation, s')) ∧
    (∀ (s : Store) (seed : Nat) (meta : CreateMeta) (f : VisitorFields),
       emailsUnique s → emailsUnique (createVisitor s seed meta f).2) := by
  constructor
  · intro s seed1 seed2 meta1 meta2 f1 f2 e row s' hf1 hf2 hcap2 h1
    obtain ⟨he, hlen, -, -, -, -, -, -, -, -, hs⟩ := createVisitor_ok h1
    rw [hf1] at he
    have hrowe : row.email = e := (Option.some.inj he).symm
    obtain ⟨fe2, fn2, fs2⟩ := f2
    dsimp only at hf2 hcap2
    subst hf2
    subst hs
    have hany : ((s.visitors ++ [row]).any fun v => v.email == e) = true := by
      simp only [List.any_eq_true]
      exact ⟨row, List.mem_append_right _ (List.mem_singleton_self _), by simp [hrowe]⟩
    have hc1 : fitsCap (some e) 255 = true := by
      simp only [fitsCap, decide_eq_true_eq]
      exact hrowe ▸ hlen
    simp [createVisitor, hc1, hcap2, hany]
  · intro s seed meta f hu
    rcases createVisitor_spec s seed meta f with ⟨err, heq⟩ | ⟨row, heq⟩ <;> rw [heq]
    · exact hu
    · obtain ⟨-, -, -, hne, -, -, -, -, -, -, -⟩ := createVisitor_ok heq
      show ((s.visitors ++ [row]).map fun v => v.email).Nodup
      rw [List.map_append, List.nodup_append]
      refine ⟨hu, List.nodup_singleton _, ?_⟩
      intro a ha hb
      rw [List.map_singleton, List.mem_singleton] at hb
      obtain ⟨v, hv, hveq⟩ := List.mem_map.mp ha
      exact hne v hv (hveq.trans hb)

/-- Witness for C2: "a@x.com" is created once, a second creation with the
same email fails with `ConstraintViolation`; a fresh-email creation on the
sample store keeps emails unique. -/
theorem c2_duplicate_email_rejected_witness :
    createVisitor emptyStore 1 noMeta ⟨some "a@x.com", none, none⟩ =
      (.ok ⟨1, "a@x.com", none, none, 0, 0⟩,
        ⟨[⟨1, "a@x.com", none, none, 0, 0⟩], [], [], [], 1⟩) ∧
    createVisitor ⟨[⟨1, "a@x.com", none, none, 0, 0⟩], [], [], [], 1⟩ 2 noMeta
      ⟨some "a@x.com", some "Dup", none⟩ =
      (.error .ConstraintViolation, ⟨[⟨1, "a@x.com", none, none, 0, 0⟩], [], [], [], 1⟩) ∧
    emailsUnique (createVisitor sampleStore 77 noMeta ⟨some "c@x.com", none, none⟩).2 :=
  ⟨rfl,
    c2_duplicate_email_rejected.1 emptyStore 1 2 noMeta noMeta
      ⟨some "a@x.com", none, none⟩ ⟨some "a@x.com", some "Dup", none⟩ "a@x.com"
      ⟨1, "a@x.com", none, none, 0, 0⟩ ⟨[⟨1, "a@x.com", none, none, 0, 0⟩], [], [], [], 1⟩
      rfl rfl rfl rfl,
    c2_duplicate_email_rejected.2 sampleStore 77 noMeta ⟨some "c@x.com", none, none⟩
      (show (sampleStore.visitors.map fun v => v.email).Nodup by decide)⟩

/-- C1: deleting an existing Visitor succeeds and, in the one atomic
operation, removes the visitor row and exactly the message rows referencing
it: afterwards no stored visitor has the deleted id, no stored message
references it, messages of other visitors all survive, and reading any
previously dependent message id yields `NotFound` (assuming pairwise-distinct
stored message ids, as the primary key guarantees). -/
theorem c1_cascade_delete (s : Store) (vid : Nat)
    (hids : (s.messages.map fun m => m.id).Nodup)
    (hex : ∃ v ∈ s.visitors, v.id = vid) :
    (deleteVisitor s vid).1 = .ok () ∧
    (∀ v ∈ (deleteVisitor s vid).2.visitors, v.id ≠ vid) ∧
    (∀ m ∈ (deleteVisitor s vid).2.messages, m.visitor_id ≠ vid) ∧
    (∀ m ∈ s.messages, m.visitor_id ≠ vid → m ∈ (deleteVisitor s vid).2.messages) ∧
    (∀ m ∈ s.messages, m.visitor_id = vid →
      readMessage (deleteVisitor s vid).2 m.id = .error .NotFound) := by
  rcases deleteVisitor_spec s vid with ⟨hno, heq⟩ | heq
  · obtain ⟨v, hv, hveq⟩ := hex
    exact absurd hveq (hno v hv)
  · rw [heq]
    refine ⟨rfl, ?_, ?_, ?_, ?_⟩
    · intro v hv
      have := (List.mem_filter.mp hv).2
      simpa using this
    · intro m hm
      have := (List.mem_filter.mp hm).2
      simpa using this
    · intro m hm hne
      exact List.mem_filter.mpr ⟨hm, by simpa using hne⟩
    · intro m hm hmv
      have hnone :
          (List.find? (fun x => x.id == m.id)
            (List.filter (fun x => x.visitor_id != vid) s.messages)) = none := by
        rw [List.find?_eq_none]
        intro x hx
        obtain ⟨hxm, hxv⟩ := List.mem_filter.mp hx
        simp only [beq_iff_eq]
        intro hxe
        have hxeq : x = m := List.inj_on_of_nodup_map hids hxm hm hxe
        subst hxeq
        rw [hmv] at hxv
        simp at hxv
      unfold readMessage
      dsimp only
      rw [hnone]

/-- Witness for C1: deleting visitor 1 from the sample store removes its two
messages (ids 10 and 11, now `NotFound`) and keeps visitor 2's message 12. -/
theorem c1_cascade_delete_witness :
    ((sampleStore.messages.map fun m => m.id).Nodup ∧
      ∃ v ∈ sampleStore.visitors, v.id = 1) ∧
    (deleteVisitor sampleStore 1).1 = .ok () ∧
    readMessage (deleteVisitor sampleStore 1).2 10 = .error .NotFound ∧
    readMessage (deleteVisitor sampleStore 1).2 11 = .error .NotFound ∧
    sampleMessage12 ∈ (deleteVisitor sampleStore 1).2.messages :=
  ⟨⟨by decide, by decide⟩,
    (c1_cascade_delete sampleStore 1 (by decide) (by decide)).1,
    (c1_cascade_delete sampleStore 1 (by decide) (by decide)).2.2.2.2 sampleMessage10
      (by decide) rfl,
    (c1_cascade_delete sampleStore 1 (by decide) (by decide)).2.2.2.2 sampleMessage11
      (by decide) rfl,
    (c1_cascade_delete sampleStore 1 (by decide) (by decide)).2.2.2.1 sampleMessage12
      (by decide) (by decide)⟩

/-- C10: each capped string column (Visitor.email 255, Visitor.name 255,
Achievement.title 255, Achievement.category 255, GalleryItem.image_url 2048,
GalleryItem.caption 500, Message.subject 255) rejects a write whose value
exceeds the cap: the Create or Update returns an error and the store is
unchanged — the value is never stored truncated. -/
theorem c10_length_caps_enforced :
    (∀ (s : Store) (seed : Nat) (meta : CreateMeta) (f : VisitorFields) (x : String),
      f.email = some x → 255 < x.length →
      ∃ err, createVisitor s seed meta f = (.error err, s)) ∧
    (∀ (s : Store) (seed : Nat) (meta : CreateMeta) (f : VisitorFields) (x : String),
      f.name = some x → 255 < x.length →
      ∃ err, createVisitor s seed meta f = (.error err, s)) ∧
    (∀ (s : Store) (seed : Nat) (meta : CreateMeta) (f : AchievementFields) (x : String),
      f.title = some x → 255 < x.length →
      ∃ err, createAchievement s seed meta f = (.error err, s)) ∧
    (∀ (s : Store) (seed : Nat) (meta : CreateMeta) (f : AchievementFields) (x : String),
      f.category = some x → 255 < x.length →
      ∃ err, createAchievement s seed meta f = (.error err, s)) ∧
    (∀ (s : Store) (seed : Nat) (meta : CreateMeta) (f : GalleryItemFields) (x : String),
      f.image_url = some x → 2048 < x.length →
      ∃ err, createGalleryItem s seed meta f = (.error err, s)) ∧
    (∀ (s : Store) (seed : Nat) (meta : CreateMeta) (f : GalleryItemFields) (x : String),
      f.caption = some x → 500 < x.length →
      ∃ err, createGalleryItem s seed meta f = (.error err, s)) ∧
    (∀ (s : Store) (seed : Nat) (meta : CreateMeta) (f : MessageFields) (x : String),
      f.subject = some x → 255 < x.length →
      ∃ err, createMessage s seed meta f = (.error err, s)) ∧
    (∀ (s : Store) (vid : Nat) (f : VisitorFields) (x : String),
      f.email = some x → 255 < x.length →
      ∃ err, updateVisitor s vid f = (.error err, s)) ∧
    (∀ (s : Store) (vid : Nat) (f : VisitorFields) (x : String),
      f.name = some x → 255 < x.length →
      ∃ err, updateVisitor s vid f = (.error err, s)) ∧
    (∀ (s : Store) (aid : Nat) (f : AchievementFields) (x : String),
      f.title = some x → 255 < x.length →
      ∃ err, updateAchievement s aid f = (.error err, s)) ∧
    (∀ (s : Store) (aid : Nat) (f : AchievementFields) (x : String),
      f.category = some x → 255 < x.length →
      ∃ err, updateAchievement s aid f = (.error err, s)) ∧
    (∀ (s : Store) (gid : Nat) (f : GalleryItemFields) (x : String),
      f.image_url = some x → 2048 < x.length →
      ∃ err, updateGalleryItem s gid f = (.error err, s)) ∧
    (∀ (s : Store) (gid : Nat) (f : GalleryItemFields) (x : String),
      f.caption = some x → 500 < x.length →
      ∃ err, updateGalleryItem s gid f = (.error err, s)) ∧
    (∀ (s : Store) (mid : Nat) (f : MessageFields) (x : String),
      f.subject = some x → 255 < x.length →
      ∃ err, updateMessage s mid f = (.error err, s)) := by
  refine ⟨?_, ?_, ?_, ?_, ?_, ?_, ?_, ?_, ?_, ?_, ?_, ?_, ?_, ?_⟩
  · intro s seed meta f x hf hlen
    rcases createVisitor_spec s seed meta f with ⟨err, heq⟩ | ⟨row, heq⟩
    · exact ⟨err, heq⟩
    · obtain ⟨he, hle, -, -, -, -, -, -, -, -, -⟩ := createVisitor_ok heq
      rw [hf] at he
      cases Option.some.inj he
      exact absurd hle (Nat.not_le.mpr hlen)
  · intro s seed meta f x hf hlen
    rcases createVisitor_spec s seed meta f with ⟨err, heq⟩ | ⟨row, heq⟩
    · exact ⟨err, heq⟩
    · obtain ⟨-, -, hcap, -, -, -, -, -, -, -, -⟩ := createVisitor_ok heq
      rw [hf] at hcap
      simp [fitsCap] at hcap
      exact absurd hcap (Nat.not_le.mpr hlen)
  · intro s seed meta f x hf hlen
    rcases createAchievement_spec s seed meta f with ⟨err, heq⟩ | ⟨row, heq⟩
    · exact ⟨err, heq⟩
    · obtain ⟨he, hle, -, -, -, -, -, -, -, -, -⟩ := createAchievement_ok heq
      rw [hf] at he
      cases Option.some.inj he
      exact absurd hle (Nat.not_le.mpr hlen)
  · intro s seed meta f x hf hlen
    rcases createAchievement_spec s seed meta f with ⟨err, heq⟩ | ⟨row, heq⟩
    · exact ⟨err, heq⟩
    · obtain ⟨-, -, hcap, -, -, -, -, -, -, -, -⟩ := createAchievement_ok heq
      rw [hf] at hcap
      simp [fitsCap] at hcap
      exact absurd hcap (Nat.not_le.mpr hlen)
  · intro s seed meta f x hf hlen
    rcases createGalleryItem_spec s seed meta f with ⟨err, heq⟩ | ⟨row, heq⟩
    · exact ⟨err, heq⟩
    · obtain ⟨he, hle, -, -, -, -, -, -, -, -⟩ := createGalleryItem_ok heq
      rw [hf] at he
      cases Option.some.inj he
      exact absurd hle (Nat.not_le.mpr hlen)
  · intro s seed meta f x hf hlen
    rcases createGalleryItem_spec s seed meta f with ⟨err, heq⟩ | ⟨row, heq⟩
    · exact ⟨err, heq⟩
    · obtain ⟨-, -, hcap, -, -, -, -, -, -, -⟩ := createGalleryItem_ok heq
      rw [hf] at hcap
      simp [fitsCap] at hcap
      exact absurd hcap (Nat.not_le.mpr hlen)
  · intro s seed meta f x hf hlen
    rcases createMessage_spec s seed meta f with ⟨err, heq⟩ | ⟨row, heq⟩
    · exact ⟨err, heq⟩
    · obtain ⟨-, -, hcap, -, -, -, -, -, -, -⟩ := createMessage_ok heq
      rw [hf] at hcap
      simp [fitsCap] at hcap
      exact absurd hcap (Nat.not_le.mpr hlen)
  · intro s vid f x hf hlen
    rcases updateVisitor_spec s vid f with ⟨err, heq⟩ | ⟨row, heq⟩
    · exact ⟨err, heq⟩
    · obtain ⟨old, -, -, hcap, -, -, -, -, -, -, -, -⟩ := updateVisitor_ok heq
      rw [hf] at hcap
      simp [fitsCap] at hcap
      exact absurd hcap (Nat.not_le.mpr hlen)
  · intro s vid f x hf hlen
    rcases updateVisitor_spec s vid f with ⟨err, heq⟩ | ⟨row, heq⟩
    · exact ⟨err, heq⟩
    · obtain ⟨old, -, -, -, hcap, -, -, -, -, -, -, -⟩ := updateVisitor_ok heq
      rw [hf] at hcap
      simp [fitsCap] at hcap
      exact absurd hcap (Nat.not_le.mpr hlen)
  · intro s aid f x hf hlen
    rcases updateAchievement_spec s aid f with ⟨err, heq⟩ | ⟨row, heq⟩
    · exact ⟨err, heq⟩
    · obtain ⟨old, -, -, hcap, -, -, -, -, -, -⟩ := updateAchievement_ok heq
      rw [hf] at hcap
      simp [fitsCap] at hcap
      exact absurd hcap (Nat.not_le.mpr hlen)
  · intro s aid f x hf hlen
    rcases updateAchievement_spec s aid f with ⟨err, heq⟩ | ⟨row, heq⟩
    · exact ⟨err, heq⟩
    · obtain ⟨old, -, -, -, hcap, -, -, -, -, -⟩ := updateAchievement_ok heq
      rw [hf] at hcap
      simp [fitsCap] at hcap
      exact absurd hcap (Nat.not_le.mpr hlen)
  · intro s gid f x hf hlen
    rcases updateGalleryItem_spec s gid f with ⟨err, heq⟩ | ⟨row, heq⟩
    · exact ⟨err, heq⟩
    · obtain ⟨old, -, -, hcap, -, -, -, -, -, -⟩ := updateGalleryItem_ok heq
      rw [hf] at hcap
      simp [fitsCap] at hcap
      exact absurd hcap (Nat.not_le.mpr hlen)
  · intro s gid f x hf hlen
    rcases updateGalleryItem_spec s gid f with ⟨err, heq⟩ | ⟨row, heq⟩
    · exact ⟨err, heq⟩
    · obtain ⟨old, -, -, -, hcap, -, -, -, -, -⟩ := updateGalleryItem_ok heq
      rw [hf] at hcap
      simp [fitsCap] at hcap
      exact absurd hcap (Nat.not_le.mpr hlen)
  · intro s mid f x hf hlen
    rcases updateMessage_spec s mid f with ⟨err, heq⟩ | ⟨row, heq⟩
    · exact ⟨err, heq⟩
    · obtain ⟨old, -, -, hcap, -, -, -, -, -, -, -, -⟩ := updateMessage_ok heq
      rw [hf] at hcap
      simp [fitsCap] at hcap
      exact absurd hcap (Nat.not_le.mpr hlen)

/-- Witness for C10: a 2049-character value exceeds every cap; each capped
write on the empty store is rejected with an error and the store unchanged. -/
theorem c10_length_caps_enforced_witness :
    (255 < ((List.replicate 2049 'a').asString).length ∧
      500 < ((List.replicate 2049 'a').asString).length ∧
      2048 < ((List.replicate 2049 'a').asString).length) ∧
    (∃ err, createVisitor emptyStore 0 noMeta
      ⟨some ((List.replicate 2049 'a').asString), none, none⟩ = (.error err, emptyStore)) ∧
    (∃ err, createVisitor emptyStore 0 noMeta
      ⟨some "a@x.com", some ((List.replicate 2049 'a').asString), none⟩ =
        (.error err, emptyStore)) ∧
    (∃ err, createAchievement emptyStore 0 noMeta
      ⟨some ((List.replicate 2049 'a').asString), none, none, none⟩ =
        (.error err, emptyStore)) ∧
    (∃ err, createAchievement emptyStore 0 noMeta
      ⟨some "t", none, none, some ((List.replicate 2049 'a').asString)⟩ =
        (.error err, emptyStore)) ∧
    (∃ err, createGalleryItem emptyStore 0 noMeta
      ⟨some ((List.replicate 2049 'a').asString), none, none⟩ = (.error err, emptyStore)) ∧
    (∃ err, createGalleryItem emptyStore 0 noMeta
      ⟨some "u", some ((List.replicate 2049 'a').asString), none⟩ =
        (.error err, emptyStore)) ∧
    (∃ err, createMessage emptyStore 0 noMeta
      ⟨some 1, some ((List.replicate 2049 'a').asString), some "c"⟩ =
        (.error err, emptyStore)) ∧
    (∃ err, updateVisitor emptyStore 1
      ⟨some ((List.replicate 2049 'a').asString), none, none⟩ = (.error err, emptyStore)) ∧
    (∃ err, updateVisitor emptyStore 1
      ⟨none, some ((List.replicate 2049 'a').asString), none⟩ = (.error err, emptyStore)) ∧
    (∃ err, updateAchievement emptyStore 1
      ⟨some ((List.replicate 2049 'a').asString), none, none, none⟩ =
        (.error err, emptyStore)) ∧
    (∃ err, updateAchievement emptyStore 1
      ⟨none, none, none, some ((List.replicate 2049 'a').asString)⟩ =
        (.error err, emptyStore)) ∧
    (∃ err, updateGalleryItem emptyStore 1
      ⟨some ((List.replicate 2049 'a').asString), none, none⟩ = (.error err, emptyStore)) ∧
    (∃ err, updateGalleryItem emptyStore 1
      ⟨none, some ((List.replicate 2049 'a').asString), none⟩ = (.error err, emptyStore)) ∧
    (∃ err, updateMessage emptyStore 1
      ⟨none, some ((List.replicate 2049 'a').asString), none⟩ = (.error err, emptyStore)) :=
  ⟨⟨by rw [List.length_asString, List.length_replicate]; norm_num, by rw [List.length_asString, List.length_replicate]; norm_num, by rw [List.length_asString, List.length_replicate]; norm_num⟩,
    c10_length_caps_enforced.1 emptyStore 0 noMeta _ _ rfl (by rw [List.length_asString, List.length_replicate]; norm_num),
    c10_length_caps_enforced.2.1 emptyStore 0 noMeta _ _ rfl (by rw [List.length_asString, List.length_replicate]; norm_num),
    c10_length_caps_enforced.2.2.1 emptyStore 0 noMeta _ _ rfl (by rw [List.length_asString, List.length_replicate]; norm_num),
    c10_length_caps_enforced.2.2.2.1 emptyStore 0 noMeta _ _ rfl (by rw [List.length_asString, List.length_replicate]; norm_num),
    c10_length_caps_enforced.2.2.2.2.1 emptyStore 0 noMeta _ _ rfl (by rw [List.length_asString, List.length_replicate]; norm_num),
    c10_length_caps_enforced.2.2.2.2.2.1 emptyStore 0 noMeta _ _ rfl (by rw [List.length_asString, List.length_replicate]; norm_num),
    c10_length_caps_enforced.2.2.2.2.2.2.1 emptyStore 0 noMeta _ _ rfl (by rw [List.length_asString, List.length_replicate]; norm_num),
    c10_length_caps_enforced.2.2.2.2.2.2.2.1 emptyStore 1 _ _ rfl (by rw [List.length_asString, List.length_replicate]; norm_num),
    c10_length_caps_enforced.2.2.2.2.2.2.2.2.1 emptyStore 1 _ _ rfl (by rw [List.length_asString, List.length_replicate]; norm_num),
    c10_length_caps_enforced.2.2.2.2.2.2.2.2.2.1 emptyStore 1 _ _ rfl (by rw [List.length_asString, List.length_replicate]; norm_num),
    c10_length_caps_enforced.2.2.2.2.2.2.2.2.2.2.1 emptyStore 1 _ _ rfl (by rw [List.length_asString, List.length_replicate]; norm_num),
    c10_length_caps_enforced.2.2.2.2.2.2.2.2.2.2.2.1 emptyStore 1 _ _ rfl (by rw [List.length_asString, List.length_replicate]; norm_num),
    c10_length_caps_enforced.2.2.2.2.2.2.2.2.2.2.2.2.1 emptyStore 1 _ _ rfl (by rw [List.length_asString, List.length_replicate]; norm_num),
    c10_length_caps_enforced.2.2.2.2.2.2.2.2.2.2.2.2.2 emptyStore 1 _ _ rfl (by rw [List.length_asString, List.length_replicate]; norm_num)⟩

end TonyHawkBio
